import Mathlib

/-
Verification of the "Assistente Crédito Público" HTTP service (src/main.py)
against its natural-language specification.

The Python module is shallowly embedded: each helper becomes a Lean function,
the HTTP transport becomes an explicit environment `Env : String → Upstream`
mapping a URL to either a response (status, body text, JSON-parse outcome) or
a transport exception, and each request handler becomes a total Lean function
returning `Except String (HandlerResult _) × List String`.  The `Except` layer
models Python exceptions escaping the handler (the error string is the Python
exception class), and the `List String` component is the trace of URLs for
which an outbound network call was issued.
-/

set_option maxRecDepth 10000

namespace CreditoPublico

/-! ## String primitives

Python string operations used by main.py, re-implemented over `List Char`
with structural recursion so that every definition reduces in the kernel.
`str.lower`/`str.upper` are modelled for ASCII plus the Portuguese accented
letters that appear in the module's string constants. -/

/-- Python `str.lower` on one character (ASCII + Portuguese accented letters). -/
def pyLowerChar (c : Char) : Char :=
  match c with
  | 'À' => 'à' | 'Á' => 'á' | 'Â' => 'â' | 'Ã' => 'ã' | 'Ç' => 'ç'
  | 'É' => 'é' | 'Ê' => 'ê' | 'Í' => 'í' | 'Ó' => 'ó' | 'Ô' => 'ô'
  | 'Õ' => 'õ' | 'Ú' => 'ú' | 'Ü' => 'ü'
  | c => c.toLower

/-- Python `str.upper` on one character (ASCII + Portuguese accented letters). -/
def pyUpperChar (c : Char) : Char :=
  match c with
  | 'à' => 'À' | 'á' => 'Á' | 'â' => 'Â' | 'ã' => 'Ã' | 'ç' => 'Ç'
  | 'é' => 'É' | 'ê' => 'Ê' | 'í' => 'Í' | 'ó' => 'Ó' | 'ô' => 'Ô'
  | 'õ' => 'Õ' | 'ú' => 'Ú' | 'ü' => 'Ü'
  | c => c.toUpper

/-- Python `s.lower()`. -/
def pyLower (s : String) : String := String.mk (s.toList.map pyLowerChar)

/-- Python `s.upper()`. -/
def pyUpper (s : String) : String := String.mk (s.toList.map pyUpperChar)

/-- Whitespace characters stripped by Python `str.strip()`. -/
def isPySpace (c : Char) : Bool :=
  c == ' ' || c == '\t' || c == '\n' || c == '\r' || c == '\x0b' || c == '\x0c'

/-- Python `s.strip()`. -/
def pyStrip (s : String) : String :=
  String.mk (((s.toList.dropWhile isPySpace).reverse.dropWhile isPySpace).reverse)

/-- Python slicing `s[:n]` (by code point, as in Python). -/
def pyTake (s : String) (n : Nat) : String := String.mk (s.toList.take n)

/-- Python `sep.join(items)`. -/
def pyJoin (sep : String) : List String → String
  | [] => ""
  | [x] => x
  | x :: y :: xs => x ++ sep ++ pyJoin sep (y :: xs)

/-- Does the character list start with the given pattern? -/
def listStartsWith : List Char → List Char → Bool
  | _, [] => true
  | [], _ :: _ => false
  | c :: cs, p :: ps => c == p && listStartsWith cs ps

/-- Count non-overlapping, leftmost-first occurrences of `pat` in the string,
scanning left to right.  The `Nat` argument is the number of characters still
to skip after a match (Python `str.count` semantics). -/
def countOccAux (pat : List Char) : List Char → Nat → Nat
  | [], _ => 0
  | _ :: cs, k + 1 => countOccAux pat cs k
  | c :: cs, 0 =>
    if listStartsWith (c :: cs) pat then 1 + countOccAux pat cs (pat.length - 1)
    else countOccAux pat cs 0

/-- Python `s.count(pat)`: non-overlapping occurrence count; an empty pattern
matches at every position including the end, giving `len(s) + 1`. -/
def pyCount (s pat : String) : Nat :=
  match pat.toList with
  | [] => s.toList.length + 1
  | _ => countOccAux pat.toList s.toList 0

/-- Python `pat in s` for strings. -/
def pyContains (s pat : String) : Bool := pyCount s pat != 0

/-- main.py:67 `normalize_cnpj`: `re.sub(r"\D", "", cnpj)` keeps decimal digits
in order (modelled for ASCII digits). -/
def normalize_cnpj (cnpj : String) : String :=
  String.mk (cnpj.toList.filter Char.isDigit)

/-- First-match association lookup, the embedding of Python `dict` lookup
(`d.get(k)` / `TABLE.get(k)`); dict literals in main.py have distinct keys. -/
def lookupStr {β : Type} (k : String) : List (String × β) → Option β
  | [] => none
  | (a, b) :: ps => if k = a then some b else lookupStr k ps

/-! ## JSON values

`r.json()` results and the values flowing out of `d.get(...)`.  JSON numbers
are modelled as integers; no property examined here depends on numeric
payload values.  A Python `None` (absent key or JSON null) is `Json.null`. -/

inductive Json where
  | null
  | bool (b : Bool)
  | num (n : Int)
  | str (s : String)
  | arr (elems : List Json)
  | obj (fields : List (String × Json))

/-- Python truthiness of a decoded JSON value. -/
def Json.truthy : Json → Bool
  | .null => false
  | .bool b => b
  | .num n => n != 0
  | .str s => s != ""
  | .arr xs => !xs.isEmpty
  | .obj fs => !fs.isEmpty

/-- Python `a or b` on decoded JSON values. -/
def jor (a b : Json) : Json := if a.truthy then a else b

/-- Inject a Python `Optional[str]` into the JSON value domain. -/
def optJson : Option String → Json
  | none => .null
  | some s => .str s

mutual
/-- Python `repr` of a decoded JSON value (used only through `Json.pyStr`
inside f-string interpolation; escape subtleties of `repr` on strings are not
modelled since no examined property touches them). -/
def Json.pyRepr : Json → String
  | .null => "None"
  | .bool true => "True"
  | .bool false => "False"
  | .num n => toString n
  | .str s => "\x27" ++ s ++ "\x27"
  | .arr xs => "[" ++ pyJoin ", " (pyReprList xs) ++ "]"
  | .obj fs => "\x7b" ++ pyJoin ", " (pyReprObj fs) ++ "\x7d"

def pyReprList : List Json → List String
  | [] => []
  | x :: xs => Json.pyRepr x :: pyReprList xs

def pyReprObj : List (String × Json) → List String
  | [] => []
  | (k, v) :: fs => ("\x27" ++ k ++ "\x27: " ++ Json.pyRepr v) :: pyReprObj fs
end

/-- Python `str(...)` / f-string interpolation of a decoded JSON value. -/
def Json.pyStr : Json → String
  | .str s => s
  | j => j.pyRepr

/-- `d.get(k)` with default `None`: returns an `AttributeError` when the
receiver is not a dict (this is how main.py can raise on non-object JSON). -/
def Json.get : Json → String → Except String Json
  | .obj fs, k => .ok ((lookupStr k fs).getD .null)
  | _, _ => .error "AttributeError"

/-- The value `(j or "").upper().strip() or None` computed by
`tribunal_links` on its `uf` argument, with the `AttributeError` Python
raises when `j` is truthy but not a string surfaced as `.error`.  Returns
the string content (un-normalized) or `none` when `j` is falsy. -/
def pyStrField (j : Json) : Except String (Option String) :=
  match j with
  | .str s => .ok (some s)
  | j => if j.truthy then .error "AttributeError" else .ok none

/-- Is the value a decoded JSON string? -/
def isStrJ : Json → Bool
  | .str _ => true
  | _ => false

/-- Content of a decoded JSON string (only applied under `isStrJ`). -/
def strOf : Json → String
  | .str s => s
  | _ => ""

/-- main.py:228 `", ".join([x for x in items if x])`: Python `str.join` raises
`TypeError` when a kept item is not a string. -/
def pyJoinStrs (sep : String) (items : List Json) : Except String String :=
  let kept := items.filter Json.truthy
  if kept.all isStrJ then .ok (pyJoin sep (kept.map strOf)) else .error "TypeError"

/-! ## Dates and `years_since` -/

structure Date where
  year : Nat
  month : Nat
  day : Nat
deriving DecidableEq

/-- Gregorian leap-year rule (as validated by `datetime.date`). -/
def isLeap (y : Nat) : Bool := (y % 4 == 0 && y % 100 != 0) || (y % 400 == 0)

def daysInMonth (y m : Nat) : Nat :=
  if m = 2 then (if isLeap y then 29 else 28)
  else if m = 4 ∨ m = 6 ∨ m = 9 ∨ m = 11 then 30
  else 31

/-- Split a character list on a separator character. -/
def splitOnChar (sep : Char) : List Char → List (List Char)
  | [] => [[]]
  | c :: cs =>
    let r := splitOnChar sep cs
    if c == sep then [] :: r
    else
      match r with
      | x :: xs => (c :: x) :: xs
      | [] => [[c]]

/-- Parse a nonempty all-digit character list as a decimal number. -/
def decDigits? (cs : List Char) : Option Nat :=
  if cs ≠ [] ∧ cs.all Char.isDigit then
    some (cs.foldl (fun n c => n * 10 + (c.toNat - 48)) 0)
  else none

/-- main.py:75-81: `datetime.fromisoformat(s).date()` with a
`strptime(s, "%Y-%m-%d")` fallback, modelled for plain calendar-date strings
`Y-M-D`: up to 4/2/2 decimal digits per component, components validated the
way `datetime.date` validates them (month 1-12, day within the month, year
1-9999).  Any other string is unparsable and yields `none`. -/
def parse_iso_date (s : String) : Option Date :=
  match splitOnChar '-' s.toList with
  | [ys, ms, ds] =>
    if ys.length ≤ 4 ∧ ms.length ≤ 2 ∧ ds.length ≤ 2 then
      match decDigits? ys, decDigits? ms, decDigits? ds with
      | some y, some m, some d =>
        if 1 ≤ y ∧ y ≤ 9999 ∧ 1 ≤ m ∧ m ≤ 12 ∧ 1 ≤ d ∧ d ≤ daysInMonth y m then
          some ⟨y, m, d⟩
        else none
      | _, _, _ => none
    else none
  | _ => none

/-- Python tuple comparison `(a1, a2) < (b1, b2)` on naturals. -/
def pairLt (a b : Nat × Nat) : Bool := a.1 < b.1 || (a.1 == b.1 && a.2 < b.2)

/-- main.py:71 `years_since`: `None` for falsy or unparsable input, otherwise
`today.year - d.year - ((today.month, today.day) < (d.month, d.day))`.
`date.today()` is the explicit `today` parameter. -/
def years_since (today : Date) (iso : Option String) : Option Int :=
  match iso with
  | none => none
  | some s =>
    if s = "" then none
    else
      match parse_iso_date s with
      | none => none
      | some d =>
        some ((today.year : Int) - (d.year : Int) -
          (if pairLt (today.month, today.day) (d.month, d.day) then 1 else 0))

/-- `years_since` as called on a value coming out of `d.get(...)`: for any
non-string JSON value Python either short-circuits on falsiness or both parse
attempts raise `TypeError` (caught), so the result is `None`. -/
def years_since_json (today : Date) : Json → Option Int
  | .str s => years_since today (some s)
  | _ => none

/-! ## Jurisdiction tables and resolver (main.py:91-166) -/

def TRF_BY_UF : List (String × String) :=
  [("AC", "TRF1"), ("AM", "TRF1"), ("AP", "TRF1"), ("BA", "TRF1"), ("DF", "TRF1"),
   ("GO", "TRF1"), ("MA", "TRF1"), ("MT", "TRF1"), ("PA", "TRF1"), ("PI", "TRF1"),
   ("RO", "TRF1"), ("RR", "TRF1"), ("TO", "TRF1"),
   ("RJ", "TRF2"), ("ES", "TRF2"),
   ("SP", "TRF3"), ("MS", "TRF3"),
   ("PR", "TRF4"), ("SC", "TRF4"), ("RS", "TRF4"),
   ("AL", "TRF5"), ("CE", "TRF5"), ("PB", "TRF5"), ("PE", "TRF5"), ("RN", "TRF5"),
   ("SE", "TRF5"),
   ("MG", "TRF6")]

def TRT_BY_UF : List (String × String) :=
  [("RJ", "TRT1"), ("MG", "TRT3"), ("RS", "TRT4"), ("BA", "TRT5"), ("PE", "TRT6"),
   ("CE", "TRT7"), ("PA", "TRT8"), ("AP", "TRT8"), ("PR", "TRT9"), ("DF", "TRT10"),
   ("TO", "TRT10"), ("AM", "TRT11"), ("RR", "TRT11"), ("SC", "TRT12"),
   ("PB", "TRT13"), ("RO", "TRT14"), ("AC", "TRT14"), ("MA", "TRT16"),
   ("ES", "TRT17"), ("GO", "TRT18"), ("AL", "TRT19"), ("SE", "TRT20"),
   ("RN", "TRT21"), ("PI", "TRT22"), ("MT", "TRT23"), ("MS", "TRT24"),
   ("SP", "TRT2/TRT15")]

/-- main.py:156-163: per-region home pages. -/
def TRF_LINKS : List (String × String) :=
  [("TRF1", "https://portal.trf1.jus.br"),
   ("TRF2", "https://www.trf2.jus.br"),
   ("TRF3", "https://www.trf3.jus.br"),
   ("TRF4", "https://www.trf4.jus.br"),
   ("TRF5", "https://www.trf5.jus.br"),
   ("TRF6", "https://www.trf6.jus.br")]

structure Links where
  cadastro_base : String
  jusbrasil_busca : Option String
  tj_home : Option String
  trt_pje : Option String
  trf_home : Option String

structure Jurisdicao where
  uf : Option String
  municipio : Json
  trf : Option String
  trt : Option String
  links : Links

/-- main.py:134 `tribunal_links`.  The `uf` parameter is the string-or-None
value after the caller-side extraction `pyStrField` (Python raises inside
this function when handed a truthy non-string; the embedding surfaces that
raise at the call site, see `pyStrField`).  `municipio` flows through
opaquely; `razao_social` is only consulted when `cnpj_digits` is empty. -/
def tribunal_links (uf : Option String) (municipio : Json) (cnpj_digits : String)
    (razao_social : Json) : Jurisdicao :=
  let u0 := pyStrip (pyUpper (uf.getD ""))
  let uf_norm : Option String := if u0 = "" then none else some u0
  let trf := match uf_norm with | some u => lookupStr u TRF_BY_UF | none => none
  let trt := match uf_norm with | some u => lookupStr u TRT_BY_UF | none => none
  let q : Json := if cnpj_digits ≠ "" then .str cnpj_digits else jor razao_social (.str "")
  { uf := uf_norm, municipio := municipio, trf := trf, trt := trt,
    links :=
      { cadastro_base := "https://brasilapi.com.br",
        jusbrasil_busca :=
          if q.truthy then some ("https://www.jusbrasil.com.br/busca?q=" ++ q.pyStr)
          else none,
        tj_home :=
          match uf_norm with
          | some u => some ("https://www.tj" ++ pyLower u ++ ".jus.br")
          | none => none,
        trt_pje := some "https://pje.trt.jus.br/consultaprocessual/",
        trf_home :=
          match trf with
          | some t => lookupStr t TRF_LINKS
          | none => none } }

/-! ## The HTTP transport and outbound-call wrappers -/

/-- Behaviour of the upstream collaborator at one URL: either a response
(any status code, raw body text, and the outcome of `r.json()` on that body)
or a transport exception carrying its message. -/
inductive Upstream where
  | resp (status : Nat) (text : String) (json : Except String Json)
  | exc (msg : String)

/-- The transport: what one GET to a given URL produces. -/
abbrev Env := String → Upstream

/-- Tagged result of main.py:173 `fetch_brasilapi_cnpj`: the ad hoc result
dicts `{"ok": True, "data": ...}`, `{"ok": False, "status_code": ..,
"text": ..}` and `{"ok": False, "error": ..}` as an explicit variant. -/
inductive CadastroResult where
  | okData (data : Json)
  | failStatus (status : Nat) (text : String)
  | failError (error : String)

def brasilapi_url (cnpj_digits : String) : String :=
  "https://brasilapi.com.br/api/cnpj/v1/" ++ cnpj_digits

/-- main.py:173 `fetch_brasilapi_cnpj`: one GET; HTTP 200 with a decodable
JSON body succeeds, a non-200 status records the truncated body, and any
exception (transport or `r.json()`) is caught and recorded with its message
truncated to 200 characters.  The second component is the outbound-call
trace. -/
def fetch_brasilapi_cnpj (env : Env) (cnpj_digits : String) :
    CadastroResult × List String :=
  match env (brasilapi_url cnpj_digits) with
  | .exc msg => (.failError (pyTake msg 200), [brasilapi_url cnpj_digits])
  | .resp status text j =>
    if status = 200 then
      match j with
      | .ok d => (.okData d, [brasilapi_url cnpj_digits])
      | .error e => (.failError (pyTake e 200), [brasilapi_url cnpj_digits])
    else (.failStatus status (pyTake text 2000), [brasilapi_url cnpj_digits])

/-- Tagged result of main.py:257 `safe_fetch_text`: `{"ok": True, "url",
"status": 200, "text"}`, `{"ok": False, "url", "status", "note":
"blocked_or_error"}` or `{"ok": False, "url", "error"}`. -/
inductive FetchTextResult where
  | okText (url : String) (text : String)
  | failStatus (url : String) (status : Nat)
  | failError (url : String) (error : String)

/-- main.py:257 `safe_fetch_text`: non-200 is recorded as blocked, the 200
body is truncated to 200000 characters, and any exception is caught with its
message truncated to 200 characters. -/
def safe_fetch_text (env : Env) (url : String) : FetchTextResult × List String :=
  match env url with
  | .exc msg => (.failError url (pyTake msg 200), [url])
  | .resp status text _ =>
    if status = 200 then (.okText url (pyTake text 200000), [url])
    else (.failStatus url status, [url])

/-! ## Evidence aggregation (main.py:247-279) -/

def KEY_TERMS : List (String × List String) :=
  [("execucao", ["execução", "execucao"]),
   ("execucao_fiscal", ["execução fiscal", "execucao fiscal"]),
   ("protesto", ["protesto", "cartório", "cartorio"]),
   ("falencia", ["falência", "falencia"]),
   ("recuperacao_judicial", ["recuperação judicial", "recuperacao judicial"]),
   ("trabalhista", ["trabalhista", "reclamatória", "reclamatoria",
                    "verbas rescisórias", "verbas rescisorias"]),
   ("cobranca", ["cobrança", "cobranca", "cobrança judicial", "cobranca judicial"])]

/-- main.py:269 `count_terms`: case-fold the text once, then for each
taxonomy key sum the non-overlapping substring counts of its variants
(each variant itself lower-cased). -/
def count_terms (text : String) : List (String × Nat) :=
  let low := pyLower text
  KEY_TERMS.map (fun kv => (kv.1, (kv.2.map (fun v => pyCount low (pyLower v))).foldl (· + ·) 0))

/-- Stable descending insertion (Python `list.sort(key=.., reverse=True)`
keeps the original order of equal counts). -/
def insertDesc (x : String × Nat) : List (String × Nat) → List (String × Nat)
  | [] => [x]
  | y :: ys => if x.2 ≥ y.2 then x :: y :: ys else y :: insertDesc x ys

def sortDesc : List (String × Nat) → List (String × Nat)
  | [] => []
  | x :: xs => insertDesc x (sortDesc xs)

/-- main.py:276 `top_findings`: keep strictly positive counts, sort
descending (stable), keep the first 6. -/
def top_findings (counts : List (String × Nat)) : List (String × Nat) :=
  (sortDesc (counts.filter (fun kv => kv.2 > 0))).take 6

/-! ## Court probing (main.py:340-369) -/

def hasCaptchaMark (h : String) : Bool :=
  pyContains h "captcha" || pyContains h "recaptcha"

def hasCloudflareMark (h : String) : Bool :=
  pyContains h "cloudflare" || pyContains h "attention required"

def hasJsMark (h : String) : Bool :=
  pyContains h "enable javascript" || pyContains h "javascript is required"

def hasDeniedMark (h : String) : Bool :=
  pyContains h "access denied" || pyContains h "forbidden"

/-- main.py:340 `detect_block_reason`: empty body yields no reason; otherwise
the case-folded body is classified in fixed order, first match winning. -/
def detect_block_reason (html : String) : Option String :=
  if html = "" then none
  else
    let h := pyLower html
    if hasCaptchaMark h then some "captcha"
    else if hasCloudflareMark h then some "cloudflare"
    else if hasJsMark h then some "javascript_required"
    else if hasDeniedMark h then some "access_denied"
    else none

/-- Probe result dict of main.py:354 `fetch_probe`; `none` fields model the
keys that are absent from the exception-branch dict. -/
structure ProbeResult where
  url : String
  http_status : Option Nat
  ok : Bool
  block_reason : Option String
  error : Option String

/-- main.py:354 `fetch_probe`: truncate the body to 200000 characters,
classify it, and report `ok` iff the status is 200 and no block reason was
found; a transport exception is caught (no classification attempted). -/
def fetch_probe (env : Env) (url : String) : ProbeResult :=
  match env url with
  | .exc msg =>
    { url := url, http_status := none, ok := false, block_reason := none,
      error := some (pyTake msg 200) }
  | .resp status text _ =>
    let reason := detect_block_reason (pyTake text 200000)
    { url := url, http_status := some status,
      ok := (status == 200) && reason.isNone,
      block_reason := reason, error := none }

/-! ## Request and response shapes -/

structure AnalyzeRequest where
  cnpj : String
  razao_social : Option String

structure EvidenceRequest where
  cnpj : String
  razao_social : Option String

structure CourtAttemptRequest where
  cnpj : String
  uf : Option String
  municipio : Option String
  razao_social : Option String

/-- A handler's normal outcomes: the `cnpj_invalido` error body or the
assembled success/partial-success body. -/
inductive HandlerResult (α : Type) where
  | invalid (error : String) (message : String)
  | ok (resp : α)

/-- The `profile` dict of main.py:198; registry-derived fields keep their
decoded JSON values, `cadastro_erro` is only present on registry failure. -/
structure Profile where
  cnpj : String
  razao_social_informada : Option String
  razao_social_encontrada : Json
  situacao : Json
  data_abertura : Json
  idade_anos : Option Int
  cnae_principal : Json
  uf : Json
  municipio : Json
  endereco : Option String
  fontes : List String
  limitacoes : List String
  cadastro_erro : Option CadastroResult

structure AnalyzeResponse where
  perfil : Profile
  jurisdicao : Jurisdicao
  nota : String

structure EvidenceSignals where
  index_sources_ok : Nat
  index_sources_blocked : Nat
  term_counts : List (String × Nat)
  top_findings : List (String × Nat)
  note : String

structure SourceEntry where
  source : String
  url : String

structure LimitationEntry where
  source : String
  url : String
  detail : FetchTextResult

structure LinkEntry where
  title : String
  url : String

structure EvidenceResponse where
  query : String
  signals : EvidenceSignals
  links : List LinkEntry
  sources : List SourceEntry
  limitations : List LimitationEntry

inductive AttemptProbe where
  | real (p : ProbeResult)
  | static_note (ok : Bool) (note : String)

/-- One element of the `attempts` list of main.py:395; the fallback branches
(`*_url_indisponivel`) construct records without a `manual_instructions`
key, modelled by `none`. -/
structure CourtAttempt where
  source : String
  probe : AttemptProbe
  manual_instructions : Option (List String)

structure CourtJurisdicao where
  trf : Option String
  trt : Option String

structure CourtAttemptResponse where
  cnpj : String
  uf : Json
  municipio : Json
  jurisdicao : CourtJurisdicao
  attempts : List CourtAttempt
  note : String

/-! ## Handler: /analyze_public (main.py:190-240) -/

/-- The failure-branch profile (main.py:229-232). -/
def failed_profile (cnpj_digits : String) (razao : Option String) (c : CadastroResult) :
    Profile :=
  { cnpj := cnpj_digits, razao_social_informada := razao,
    razao_social_encontrada := .null, situacao := .null, data_abertura := .null,
    idade_anos := none, cnae_principal := .null, uf := .null, municipio := .null,
    endereco := none,
    fontes := ["BrasilAPI CNPJ (falhou)"],
    limitacoes := ["Não foi possível obter cadastro via BrasilAPI (instabilidade, limite ou falha)."],
    cadastro_erro := some c }

/-- The success-branch profile (main.py:213-228).  In Python the chain of
`d.get(...)` calls raises `AttributeError` at the first call exactly when
`d` is not a dict; when `d` is a dict every `get` is a pure lookup, so the
raise is modelled by a single match on the shape of `d`.  `", ".join`
raises `TypeError` when a kept component is not a string. -/
def build_profile (today : Date) (cnpj_digits : String) (razao : Option String)
    (d : Json) : Except String Profile :=
  match d with
  | .obj fs =>
    let dget := fun k => ((lookupStr k fs).getD Json.null)
    match pyJoinStrs ", " [jor (dget "logradouro") (.str ""), jor (dget "numero") (.str ""),
                          jor (dget "bairro") (.str ""), dget "municipio", dget "uf",
                          jor (dget "cep") (.str "")] with
    | .error e => .error e
    | .ok endereco =>
      .ok { cnpj := cnpj_digits, razao_social_informada := razao,
            razao_social_encontrada := dget "razao_social",
            situacao := jor (dget "descricao_situacao_cadastral") (dget "situacao_cadastral"),
            data_abertura := dget "data_inicio_atividade",
            idade_anos := years_since_json today (dget "data_inicio_atividade"),
            cnae_principal := jor (dget "cnae_fiscal_descricao") (dget "cnae_fiscal"),
            uf := dget "uf", municipio := dget "municipio",
            endereco := some endereco,
            fontes := ["BrasilAPI CNPJ (fonte pública)"], limitacoes := [],
            cadastro_erro := none }
  | _ => .error "AttributeError"

/-- The `if cadastro.get("ok")` dispatch of main.py:213/229. -/
def profile_of_cadastro (today : Date) (cnpj_digits : String) (razao : Option String) :
    CadastroResult → Except String Profile
  | .okData d => build_profile today cnpj_digits razao d
  | c => .ok (failed_profile cnpj_digits razao c)

/-- main.py:234-240: resolve the jurisdiction from the (possibly absent)
discovered state and assemble the response.  `pyStrField` surfaces the
`AttributeError` that `tribunal_links` raises in Python on a truthy
non-string `uf`. -/
def analyze_assemble (req : AnalyzeRequest) (cnpj_digits : String) (tr : List String) :
    Except String Profile → Except String (HandlerResult AnalyzeResponse) × List String
  | .error e => (.error e, tr)
  | .ok p =>
    match pyStrField p.uf with
    | .error e => (.error e, tr)
    | .ok ufO =>
      (.ok (.ok { perfil := p,
                  jurisdicao := tribunal_links ufO p.municipio cnpj_digits
                    (jor p.razao_social_encontrada (optJson req.razao_social)),
                  nota := "Fase 1: Cadastro + Jurisdição (com links para consulta)." }),
       tr)

/-- main.py:190 `analyze_public`. -/
def analyze_public (env : Env) (today : Date) (req : AnalyzeRequest) :
    Except String (HandlerResult AnalyzeResponse) × List String :=
  if (normalize_cnpj req.cnpj).length = 14 then
    analyze_assemble req (normalize_cnpj req.cnpj)
      (fetch_brasilapi_cnpj env (normalize_cnpj req.cnpj)).2
      (profile_of_cadastro today (normalize_cnpj req.cnpj) req.razao_social
        (fetch_brasilapi_cnpj env (normalize_cnpj req.cnpj)).1)
  else (.ok (.invalid "cnpj_invalido" "CNPJ deve ter 14 dígitos."), [])

/-! ## Handler: /evidence_search (main.py:281-333) -/

/-- main.py:281 `evidence_search`: builds both indexer URLs from the
normalized CNPJ, fetches each independently, concatenates the successful
bodies (with the `"\n"` separator prepended to the second body whenever it
succeeded), counts terms, and reports sources/limitations. -/
def evidence_search (env : Env) (req : EvidenceRequest) :
    Except String (HandlerResult EvidenceResponse) × List String :=
  if (normalize_cnpj req.cnpj).length = 14 then
    let q := normalize_cnpj req.cnpj
    let jus_url := "https://www.jusbrasil.com.br/busca?q=" ++ q
    let esc_url := "https://www.escavador.com/busca?qo=" ++ q
    let jus := safe_fetch_text env jus_url
    let esc := safe_fetch_text env esc_url
    let jusText : Option String :=
      match jus.1 with | .okText _ t => some t | _ => none
    let escText : Option String :=
      match esc.1 with | .okText _ t => some t | _ => none
    let combined := (match jusText with | some t => t | none => "") ++
                    (match escText with | some t => "\n" ++ t | none => "")
    let sources :=
      (match jusText with | some _ => [SourceEntry.mk "jusbrasil" jus_url] | none => []) ++
      (match escText with | some _ => [SourceEntry.mk "escavador" esc_url] | none => [])
    let limitations :=
      (match jusText with
       | none => [LimitationEntry.mk "jusbrasil" jus_url jus.1] | some _ => []) ++
      (match escText with
       | none => [LimitationEntry.mk "escavador" esc_url esc.1] | some _ => [])
    let counts := count_terms combined
    (.ok (.ok { query := q,
                signals := { index_sources_ok := sources.length,
                             index_sources_blocked := limitations.length,
                             term_counts := counts,
                             top_findings := top_findings counts,
                             note := "Indícios por indexadores. NÃO confirma processos. Requer validação no tribunal." },
                links := [⟨"JusBrasil - busca", jus_url⟩, ⟨"Escavador - busca", esc_url⟩,
                          ⟨"Google - busca", "https://www.google.com/search?q=" ++ q⟩],
                sources := sources, limitations := limitations }),
     jus.2 ++ esc.2)
  else (.ok (.invalid "cnpj_invalido" "CNPJ deve ter 14 dígitos."), [])

/-! ## Handler: /court_attempt (main.py:371-449) -/

def tj_instructions : List String :=
  ["Abra o site do TJ.",
   "Procure por \x27Consulta Processual\x27 ou \x27Consulta de Processos\x27.",
   "Tente pesquisar por CNPJ (se existir campo) ou por razão social.",
   "Se houver captcha/JS, a consulta precisará ser manual."]

def trt_instructions : List String :=
  ["Abra o PJe - Consulta Processual.",
   "Selecione o grau (1º/2º) se solicitado.",
   "Pesquise por CNPJ e/ou razão social.",
   "Se o portal pedir captcha, registre como bloqueado e faça manualmente."]

def trf_instructions : List String :=
  ["Abra o site do TRF competente.",
   "Procure por \x27Consulta Processual\x27 (e-Proc/PJe/Consulta Pública).",
   "Pesquise por CNPJ/razão social quando disponível.",
   "Se houver captcha/JS, a consulta precisará ser manual."]

/-- The three repeated attempt-building blocks of main.py:398-440: a
resolvable URL yields a real probe paired with the manual instructions; an
unresolvable one yields the static unavailable marker with no instructions.
The second component is the outbound-call trace. -/
def mkAttempt (env : Env) (src : String) (instrs : List String) (fallback : String) :
    Option String → CourtAttempt × List String
  | some u =>
    ({ source := src, probe := .real (fetch_probe env u),
       manual_instructions := some instrs }, [u])
  | none =>
    ({ source := src, probe := .static_note false fallback,
       manual_instructions := none }, [])

/-- main.py:377: `uf = (req.uf or "").upper().strip() or None` as a JSON
value (`null` for absent/blank). -/
def court_uf0 (req : CourtAttemptRequest) : Json :=
  if pyStrip (pyUpper (req.uf.getD "")) = "" then .null
  else .str (pyStrip (pyUpper (req.uf.getD "")))

/-- main.py:378: `municipio = (req.municipio or "").strip() or None`. -/
def court_mun0 (req : CourtAttemptRequest) : Json :=
  if pyStrip (req.municipio.getD "") = "" then .null
  else .str (pyStrip (req.municipio.getD ""))

/-- main.py:381-382: the registry is consulted only when no state was given. -/
def court_fetched (env : Env) (req : CourtAttemptRequest) (cnpj_digits : String) :
    Option (CadastroResult × List String) :=
  if (court_uf0 req).truthy then none
  else some (fetch_brasilapi_cnpj env cnpj_digits)

/-- main.py:383-386: on a successful registry lookup, `uf = d.get("uf") or
uf` and `municipio = d.get("municipio") or municipio`; the `d.get` calls
raise `AttributeError` when the decoded body is not a dict. -/
def derive_uf_mun (uf0 mun0 : Json) :
    Option (CadastroResult × List String) → Except String (Json × Json)
  | none => .ok (uf0, mun0)
  | some fr =>
    match fr.1 with
    | .okData (.obj fs) =>
      .ok (jor ((lookupStr "uf" fs).getD .null) uf0,
           jor ((lookupStr "municipio" fs).getD .null) mun0)
    | .okData _ => .error "AttributeError"
    | _ => .ok (uf0, mun0)

/-- main.py:388-449: resolve the jurisdiction (raising as `tribunal_links`
would on a truthy non-string state), build the three attempts, assemble the
response. -/
def court_assemble (env : Env) (req : CourtAttemptRequest) (cnpj_digits : String)
    (tr0 : List String) :
    Except String (Json × Json) → Except String (HandlerResult CourtAttemptResponse) × List String
  | .error e => (.error e, tr0)
  | .ok (ufj, munj) =>
    match pyStrField ufj with
    | .error e => (.error e, tr0)
    | .ok ufO =>
      let juris := tribunal_links ufO munj cnpj_digits (optJson req.razao_social)
      let a1 := mkAttempt env "TJ" tj_instructions "tj_url_indisponivel" juris.links.tj_home
      let a2 := mkAttempt env "TRT_PJe_JT" trt_instructions "trt_url_indisponivel" juris.links.trt_pje
      let a3 := mkAttempt env "TRF" trf_instructions "trf_url_indisponivel" juris.links.trf_home
      (.ok (.ok { cnpj := cnpj_digits, uf := ufj, municipio := munj,
                  jurisdicao := { trf := juris.trf, trt := juris.trt },
                  attempts := [a1.1, a2.1, a3.1],
                  note := "Tentativa automática de acesso aos portais. ok=false + block_reason indica bloqueio (captcha/JS/etc)." }),
       tr0 ++ a1.2 ++ a2.2 ++ a3.2)

/-- main.py:371 `court_attempt`. -/
def court_attempt (env : Env) (req : CourtAttemptRequest) :
    Except String (HandlerResult CourtAttemptResponse) × List String :=
  if (normalize_cnpj req.cnpj).length = 14 then
    court_assemble env req (normalize_cnpj req.cnpj)
      (match court_fetched env req (normalize_cnpj req.cnpj) with
       | some fr => fr.2 | none => [])
      (derive_uf_mun (court_uf0 req) (court_mun0 req)
        (court_fetched env req (normalize_cnpj req.cnpj)))
  else (.ok (.invalid "cnpj_invalido" "CNPJ deve ter 14 dígitos."), [])

/-! ## Concrete environments and inputs used by witnesses and counterexamples -/

/-- A transport that always raises. -/
def envExc : Env := fun _ => .exc "connection timeout"

/-- A transport that always answers 200 with the JSON body `[]`. -/
def badEnv : Env := fun _ => .resp 200 "[]" (.ok (.arr []))

/-- A transport whose 200 body carries a reCAPTCHA marker. -/
def envRecaptcha : Env :=
  fun _ => .resp 200 "Por favor resolva o reCAPTCHA para continuar" (.ok .null)

/-- Sample page text: "execução fiscal" twice, "protesto" once, and no other
taxonomy variant except the "execução" occurrences inside the phrases. -/
def sampleText : String :=
  "execução fiscal ajuizada; depois outra execução fiscal; houve protesto."

/-- JSON values that are either null or a string: the shape of the registry
fields the handlers manipulate. -/
def NullOrStr (j : Json) : Prop := j = .null ∨ ∃ s, j = .str s

/-- A JSON object all of whose field values are null-or-string. -/
def StrObjVal (j : Json) : Prop :=
  ∃ fs, j = .obj fs ∧ ∀ kv ∈ fs, NullOrStr kv.2

/-- A transport whose successful (status-200, JSON-decodable) responses all
carry objects with null-or-string field values. -/
def GoodEnv (env : Env) : Prop :=
  ∀ url t j, env url = .resp 200 t (.ok j) → StrObjVal j

/-! ## Shared lemmas -/

theorem lookupStr_mem {β : Type} {l : List (String × β)} {k : String} {v : β}
    (h : lookupStr k l = some v) : (k, v) ∈ l := by
  induction l with
  | nil => simp [lookupStr] at h
  | cons p ps ih =>
    obtain ⟨a, b⟩ := p
    simp only [lookupStr] at h
    split at h
    · next heq =>
      injection h with hv
      subst heq hv
      exact List.mem_cons_self _ _
    · exact List.mem_cons_of_mem _ (ih h)

theorem dget_nullOrStr {fs : List (String × Json)} (hfs : ∀ kv ∈ fs, NullOrStr kv.2)
    (k : String) : NullOrStr ((lookupStr k fs).getD .null) := by
  cases hl : lookupStr k fs with
  | none => exact Or.inl rfl
  | some v => exact hfs _ (lookupStr_mem hl)

theorem jor_str_fill {a : Json} (ha : NullOrStr a) (t : String) :
    ∃ s, jor a (.str t) = .str s := by
  rcases ha with rfl | ⟨s, rfl⟩
  · exact ⟨t, rfl⟩
  · by_cases hs : s = ""
    · subst hs; exact ⟨t, rfl⟩
    · refine ⟨s, ?_⟩
      simp [jor, Json.truthy, hs]

theorem jor_nullOrStr {a b : Json} (ha : NullOrStr a) (hb : NullOrStr b) :
    NullOrStr (jor a b) := by
  unfold jor
  split
  · exact ha
  · exact hb

theorem pyStrField_ok {j : Json} (h : NullOrStr j) : ∃ o, pyStrField j = .ok o := by
  rcases h with rfl | ⟨s, rfl⟩
  · exact ⟨none, rfl⟩
  · exact ⟨some s, rfl⟩

theorem pyJoinStrs_ok {items : List Json} (h : ∀ j ∈ items, NullOrStr j) :
    ∃ s, pyJoinStrs ", " items = .ok s := by
  have hall : (items.filter Json.truthy).all isStrJ = true := by
    rw [List.all_eq_true]
    intro j hj
    rw [List.mem_filter] at hj
    rcases h j hj.1 with rfl | ⟨s, rfl⟩
    · exact absurd hj.2 (by simp [Json.truthy])
    · rfl
  exact ⟨pyJoin ", " ((items.filter Json.truthy).map strOf), by simp [pyJoinStrs, hall]⟩

theorem fetch_okData_good {env : Env} (hg : GoodEnv env) (c : String) {d : Json}
    (h : (fetch_brasilapi_cnpj env c).1 = .okData d) : StrObjVal d := by
  unfold fetch_brasilapi_cnpj at h
  cases he : env (brasilapi_url c) with
  | exc msg => rw [he] at h; simp at h
  | resp s t j =>
    rw [he] at h
    by_cases hs : s = 200
    · subst hs
      cases j with
      | ok jj =>
        simp only [if_pos rfl] at h
        injection h with h
        subst h
        exact hg _ _ _ he
      | error e => simp at h
    · simp [hs] at h

theorem build_profile_ok (today : Date) (c : String) (rz : Option String)
    {d : Json} (hd : StrObjVal d) :
    ∃ p, build_profile today c rz d = .ok p ∧ NullOrStr p.uf := by
  obtain ⟨fs, rfl, hfs⟩ := hd
  have hitems : ∀ j ∈ [jor ((lookupStr "logradouro" fs).getD Json.null) (.str ""),
                       jor ((lookupStr "numero" fs).getD Json.null) (.str ""),
                       jor ((lookupStr "bairro" fs).getD Json.null) (.str ""),
                       (lookupStr "municipio" fs).getD Json.null,
                       (lookupStr "uf" fs).getD Json.null,
                       jor ((lookupStr "cep" fs).getD Json.null) (.str "")], NullOrStr j := by
    intro j hj
    simp only [List.mem_cons, List.not_mem_nil, or_false] at hj
    rcases hj with rfl | rfl | rfl | rfl | rfl | rfl
    · exact Or.inr (jor_str_fill (dget_nullOrStr hfs _) "")
    · exact Or.inr (jor_str_fill (dget_nullOrStr hfs _) "")
    · exact Or.inr (jor_str_fill (dget_nullOrStr hfs _) "")
    · exact dget_nullOrStr hfs _
    · exact dget_nullOrStr hfs _
    · exact Or.inr (jor_str_fill (dget_nullOrStr hfs _) "")
  obtain ⟨s, hs⟩ := pyJoinStrs_ok hitems
  simp only [build_profile]
  rw [hs]
  exact ⟨_, rfl, dget_nullOrStr hfs "uf"⟩

/-! ## Claim theorems -/

/-- C1: whenever the request's `cnpj` field normalizes to a digit string of
length different from 14, each of the three POST handlers returns the
structured `cnpj_invalido` result immediately — for every transport
behaviour the response is the same constant and the outbound-call trace is
empty, so no network call is issued. -/
theorem c1_invalid_cnpj_fails_fast_without_network
    (env : Env) (today : Date) (cnpj : String) (razao uf municipio : Option String)
    (h : (normalize_cnpj cnpj).length ≠ 14) :
    analyze_public env today { cnpj := cnpj, razao_social := razao } =
      (.ok (.invalid "cnpj_invalido" "CNPJ deve ter 14 dígitos."), []) ∧
    evidence_search env { cnpj := cnpj, razao_social := razao } =
      (.ok (.invalid "cnpj_invalido" "CNPJ deve ter 14 dígitos."), []) ∧
    court_attempt env { cnpj := cnpj, uf := uf, municipio := municipio, razao_social := razao } =
      (.ok (.invalid "cnpj_invalido" "CNPJ deve ter 14 dígitos."), []) := by
  refine ⟨?_, ?_, ?_⟩
  · unfold analyze_public
    rw [if_neg h]
  · unfold evidence_search
    rw [if_neg h]
  · unfold court_attempt
    rw [if_neg h]

theorem c1_witness :
    (normalize_cnpj "123").length ≠ 14 ∧
    (analyze_public envExc ⟨2026, 10, 12⟩ { cnpj := "123", razao_social := none } =
      (.ok (.invalid "cnpj_invalido" "CNPJ deve ter 14 dígitos."), []) ∧
    evidence_search envExc { cnpj := "123", razao_social := none } =
      (.ok (.invalid "cnpj_invalido" "CNPJ deve ter 14 dígitos."), []) ∧
    court_attempt envExc { cnpj := "123", uf := none, municipio := none, razao_social := none } =
      (.ok (.invalid "cnpj_invalido" "CNPJ deve ter 14 dígitos."), [])) :=
  ⟨by decide,
   c1_invalid_cnpj_fails_fast_without_network envExc ⟨2026, 10, 12⟩ "123" none none none
     (by decide)⟩

/-- C4: `count_terms` returns a count for every key of the fixed taxonomy in
declaration order (zero-filled), and on a text containing "execução fiscal"
exactly twice and "protesto" exactly once it yields `execucao_fiscal = 2`,
`execucao = 2` (the variant "execução" matches inside each "execução
fiscal"), `protesto = 1` and 0 for every other key. -/
theorem c4_count_terms_zero_filled :
    (∀ text, (count_terms text).map Prod.fst =
      ["execucao", "execucao_fiscal", "protesto", "falencia",
       "recuperacao_judicial", "trabalhista", "cobranca"]) ∧
    count_terms sampleText =
      [("execucao", 2), ("execucao_fiscal", 2), ("protesto", 1), ("falencia", 0),
       ("recuperacao_judicial", 0), ("trabalhista", 0), ("cobranca", 0)] := by
  exact ⟨fun _ => rfl, by decide⟩

/-- C5: for every input state code, `tribunal_links` resolves the federal
region by looking up the upper-cased, trimmed code in the 27-entry
`TRF_BY_UF` table — absent codes give a null `trf`, present codes give
exactly the table's mapped label, and every label in the table is one of
TRF1..TRF6. -/
theorem c5_trf_resolution (uf : String) (municipio razao : Json) (cnpj : String) :
    (tribunal_links (some uf) municipio cnpj razao).trf =
      lookupStr (pyStrip (pyUpper uf)) TRF_BY_UF ∧
    TRF_BY_UF.length = 27 ∧
    TRF_BY_UF.all
      (fun kv => ["TRF1", "TRF2", "TRF3", "TRF4", "TRF5", "TRF6"].contains kv.2) = true := by
  refine ⟨?_, by decide, by decide⟩
  unfold tribunal_links
  by_cases h : pyStrip (pyUpper uf) = ""
  · simp [h]
    decide
  · simp [h]

/-- C10: `/evidence_search` never reads `razao_social`: two requests with
the same `cnpj` and arbitrary `razao_social` values produce identical
responses (and identical outbound-call traces) under every transport, and
any successful response's query is the normalized CNPJ alone. -/
theorem c10_evidence_ignores_razao_social (env : Env) (cnpj : String)
    (r1 r2 : Option String) :
    evidence_search env { cnpj := cnpj, razao_social := r1 } =
      evidence_search env { cnpj := cnpj, razao_social := r2 } ∧
    (match (evidence_search env { cnpj := cnpj, razao_social := r1 }).1 with
     | .ok (.ok resp) => resp.query = normalize_cnpj cnpj
     | _ => True) := by
  constructor
  · rfl
  · by_cases h14 : (normalize_cnpj cnpj).length = 14
    · unfold evidence_search
      rw [if_pos h14]
    · unfold evidence_search
      rw [if_neg h14]
      trivial

/-- C3: `fetch_probe` reports `ok = true` iff the HTTP status is 200 and no
block reason was detected in the (case-folded, truncated-to-200000-chars)
body; block reasons are classified in fixed order with first match winning
(captcha, cloudflare, javascript_required, access_denied); a 200 body
containing "recaptcha" yields `ok = false` with `block_reason = "captcha"`;
and a transport exception yields `ok = false` with the truncated error
string and no block-reason classification. -/
theorem c3_probe_classification (env : Env) (url : String) :
    (∀ msg, env url = .exc msg →
      fetch_probe env url =
        { url := url, http_status := none, ok := false, block_reason := none,
          error := some (pyTake msg 200) }) ∧
    (∀ s t j, env url = .resp s t j →
      ((fetch_probe env url).ok = true ↔
        s = 200 ∧ detect_block_reason (pyTake t 200000) = none) ∧
      (fetch_probe env url).block_reason = detect_block_reason (pyTake t 200000) ∧
      (fetch_probe env url).error = none) ∧
    (∀ h, hasCaptchaMark (pyLower h) = true →
      detect_block_reason h = some "captcha") ∧
    (∀ h, hasCaptchaMark (pyLower h) = false → hasCloudflareMark (pyLower h) = true →
      detect_block_reason h = some "cloudflare") ∧
    (∀ h, hasCaptchaMark (pyLower h) = false → hasCloudflareMark (pyLower h) = false →
      hasJsMark (pyLower h) = true →
      detect_block_reason h = some "javascript_required") ∧
    (∀ h, hasCaptchaMark (pyLower h) = false → hasCloudflareMark (pyLower h) = false →
      hasJsMark (pyLower h) = false → hasDeniedMark (pyLower h) = true →
      detect_block_reason h = some "access_denied") ∧
    (∀ h, hasCaptchaMark (pyLower h) = false → hasCloudflareMark (pyLower h) = false →
      hasJsMark (pyLower h) = false → hasDeniedMark (pyLower h) = false →
      detect_block_reason h = none) ∧
    (∀ s t j, env url = .resp s t j → s = 200 →
      pyContains (pyLower (pyTake t 200000)) "recaptcha" = true →
      (fetch_probe env url).ok = false ∧
      (fetch_probe env url).block_reason = some "captcha") := by
  have hdet_cap : ∀ h, hasCaptchaMark (pyLower h) = true →
      detect_block_reason h = some "captcha" := by
    intro h hc
    by_cases hh : h = ""
    · subst hh; exact absurd hc (by decide)
    · simp [detect_block_reason, hh, hc]
  have hresp : ∀ s t j, env url = .resp s t j →
      fetch_probe env url =
        { url := url, http_status := some s,
          ok := (s == 200) && (detect_block_reason (pyTake t 200000)).isNone,
          block_reason := detect_block_reason (pyTake t 200000), error := none } := by
    intro s t j he
    unfold fetch_probe
    rw [he]
  refine ⟨?_, ?_, hdet_cap, ?_, ?_, ?_, ?_, ?_⟩
  · intro msg he
    unfold fetch_probe
    rw [he]
  · intro s t j he
    rw [hresp s t j he]
    refine ⟨?_, rfl, rfl⟩
    simp [Option.isNone_iff_eq_none]
  · intro h hc hcf
    by_cases hh : h = ""
    · subst hh; exact absurd hcf (by decide)
    · simp [detect_block_reason, hh, hc, hcf]
  · intro h hc hcf hjs
    by_cases hh : h = ""
    · subst hh; exact absurd hjs (by decide)
    · simp [detect_block_reason, hh, hc, hcf, hjs]
  · intro h hc hcf hjs hd
    by_cases hh : h = ""
    · subst hh; exact absurd hd (by decide)
    · simp [detect_block_reason, hh, hc, hcf, hjs, hd]
  · intro h hc hcf hjs hd
    by_cases hh : h = ""
    · subst hh; simp [detect_block_reason]
    · simp [detect_block_reason, hh, hc, hcf, hjs, hd]
  · intro s t j he hs hrec
    subst hs
    have hcap : hasCaptchaMark (pyLower (pyTake t 200000)) = true := by
      simp [hasCaptchaMark, hrec]
    have hd := hdet_cap _ hcap
    rw [hresp 200 t j he]
    simp [hd]

theorem c3_witness :
    pyContains (pyLower (pyTake "Por favor resolva o reCAPTCHA para continuar" 200000))
      "recaptcha" = true ∧
    (fetch_probe envRecaptcha "https://www.tjsp.jus.br").ok = false ∧
    (fetch_probe envRecaptcha "https://www.tjsp.jus.br").block_reason = some "captcha" := by
  have h := (c3_probe_classification envRecaptcha "https://www.tjsp.jus.br").2.2.2.2.2.2.2
    200 "Por favor resolva o reCAPTCHA para continuar" (.ok .null) rfl rfl (by decide)
  exact ⟨by decide, h⟩

/-- C6 counterexample: the claim asserts some state in the federal table
resolves a region with no home-page URL; in the code every one of the 27
mapped states yields both a non-null `trf` and a non-null `trf_home`, so the
claimed state does not exist. -/
theorem c6_counterexample_every_state_has_home :
    TRF_BY_UF.all (fun kv =>
      ((tribunal_links (some kv.1) Json.null "11222333000144" Json.null).trf).isSome &&
      ((tribunal_links (some kv.1) Json.null "11222333000144" Json.null).links.trf_home).isSome)
      = true := by decide

/-- C6 (amended): every state code present in the federal-region table maps
to a region that does have a public home-page URL: `tribunal_links` returns
the mapped region together with a non-null `trf_home` link. -/
theorem c6_mapped_states_have_home (uf : String) (municipio razao : Json)
    (cnpj : String) (v : String)
    (h : lookupStr (pyStrip (pyUpper uf)) TRF_BY_UF = some v) :
    (tribunal_links (some uf) municipio cnpj razao).trf = some v ∧
    ((tribunal_links (some uf) municipio cnpj razao).links.trf_home).isSome = true := by
  have h0 : ¬pyStrip (pyUpper uf) = "" := by
    intro he
    rw [he] at h
    rw [show lookupStr "" TRF_BY_UF = none from by decide] at h
    exact Option.noConfusion h
  have hhome : (lookupStr v TRF_LINKS).isSome = true := by
    have hall : TRF_BY_UF.all (fun kv => (lookupStr kv.2 TRF_LINKS).isSome) = true := by decide
    simpa using List.all_eq_true.mp hall _ (lookupStr_mem h)
  constructor
  · unfold tribunal_links
    simp [h0, h]
  · unfold tribunal_links
    simp [h0, h, hhome]

theorem c6_witness :
    (tribunal_links (some "MG") Json.null "11222333000144" Json.null).trf = some "TRF6" ∧
    ((tribunal_links (some "MG") Json.null "11222333000144" Json.null).links.trf_home).isSome
      = true :=
  c6_mapped_states_have_home "MG" Json.null Json.null "11222333000144" "TRF6" (by decide)

/-- A well-formed attempt record: a real probe comes with nonempty manual
instructions, a static unavailable marker comes with none. -/
def attemptOk (a : CourtAttempt) : Bool :=
  match a.probe, a.manual_instructions with
  | .real _, some l => !l.isEmpty
  | .static_note _ _, none => true
  | _, _ => false

def attemptsWellFormed :
    Except String (HandlerResult CourtAttemptResponse) × List String → Bool
  | (.ok (.ok r), _) => r.attempts.all attemptOk
  | _ => true

/-- Per-attempt summary (source label, does the record carry instructions). -/
def attemptSummary :
    Except String (HandlerResult CourtAttemptResponse) × List String → List (String × Bool)
  | (.ok (.ok r), _) => r.attempts.map (fun a => (a.source, a.manual_instructions.isSome))
  | _ => []

theorem mkAttempt_tj_wf (env : Env) (x : Option String) :
    attemptOk (mkAttempt env "TJ" tj_instructions "tj_url_indisponivel" x).1 = true := by
  cases x <;> rfl

theorem mkAttempt_trt_wf (env : Env) (x : Option String) :
    attemptOk (mkAttempt env "TRT_PJe_JT" trt_instructions "trt_url_indisponivel" x).1 = true := by
  cases x <;> rfl

theorem mkAttempt_trf_wf (env : Env) (x : Option String) :
    attemptOk (mkAttempt env "TRF" trf_instructions "trf_url_indisponivel" x).1 = true := by
  cases x <;> rfl

/-- C7 counterexample: for the valid request with `uf = "XX"` (a state code
outside the federal table) the TRF attempt record is produced by the
fallback branch and carries no `manual_instructions` key, refuting the claim
that each of the three attempt records always carries instructions. -/
theorem c7_counterexample_missing_instructions :
    attemptSummary (court_attempt envExc
      { cnpj := "11222333000144", uf := some "XX", municipio := none,
        razao_social := none }) =
      [("TJ", true), ("TRT_PJe_JT", true), ("TRF", false)] := by decide

/-- C7 (amended): in every `/court_attempt` response, each attempt record
that contains a real probe carries a nonempty static list of manual
instructions, while a record produced for an unresolvable URL carries the
static unavailable marker and no instructions. -/
theorem c7_probe_attempts_carry_instructions (env : Env) (req : CourtAttemptRequest) :
    attemptsWellFormed (court_attempt env req) = true := by
  unfold court_attempt
  split
  · unfold court_assemble
    split
    · rfl
    · split
      · rfl
      · simp only [attemptsWellFormed, List.all_cons, List.all_nil, Bool.and_true,
          mkAttempt_tj_wf, mkAttempt_trt_wf, mkAttempt_trf_wf, Bool.and_self]
  · rfl

/-- C9: `tribunal_links` sets the `trt_pje` link to the same constant
non-null URL for every input, and consequently the TRT attempt of every
`/court_attempt` response contains a real `fetch_probe` result against that
constant URL (the `trt_url_indisponivel` fallback branch is unreachable). -/
theorem c9_trt_probe_always_real (ufO : Option String) (municipio razao : Json)
    (cnpj : String) (env : Env) (req : CourtAttemptRequest) :
    (tribunal_links ufO municipio cnpj razao).links.trt_pje =
      some "https://pje.trt.jus.br/consultaprocessual/" ∧
    (match (court_attempt env req).1 with
     | .ok (.ok r) =>
       r.attempts[1]? = some
         { source := "TRT_PJe_JT",
           probe := .real (fetch_probe env "https://pje.trt.jus.br/consultaprocessual/"),
           manual_instructions := some trt_instructions }
     | _ => True) := by
  refine ⟨rfl, ?_⟩
  unfold court_attempt
  by_cases h14 : (normalize_cnpj req.cnpj).length = 14
  · rw [if_pos h14]
    cases hde : derive_uf_mun (court_uf0 req) (court_mun0 req)
        (court_fetched env req (normalize_cnpj req.cnpj)) with
    | error e =>
      trivial
    | ok pq =>
      obtain ⟨ufj, munj⟩ := pq
      cases hpf : pyStrField ufj with
      | error e =>
        simp only [court_assemble]
        rw [hpf]
        trivial
      | ok ufO =>
        simp only [court_assemble]
        rw [hpf]
        rfl
  · rw [if_neg h14]
    trivial

/-- `a` is on or before `b` in calendar order. -/
def dateLe (a b : Date) : Prop :=
  a.year < b.year ∨
    (a.year = b.year ∧ (a.month < b.month ∨ (a.month = b.month ∧ a.day ≤ b.day)))

/-- C8: `years_since` is null iff the input is null, empty, or unparsable;
for every parsable date not after today it returns current-year minus
registration-year decremented by one exactly when today's (month, day) pair
precedes the date's (month, day) pair, and that value is never negative; a
date exactly one year before today yields 1. -/
theorem c8_years_since_contract (today : Date) :
    (∀ iso, years_since today iso = none ↔
      iso = none ∨ iso = some "" ∨ ∃ s, iso = some s ∧ parse_iso_date s = none) ∧
    (∀ s d, parse_iso_date s = some d → dateLe d today →
      years_since today (some s) =
        some ((today.year : Int) - (d.year : Int) -
          (if pairLt (today.month, today.day) (d.month, d.day) then 1 else 0)) ∧
      0 ≤ (today.year : Int) - (d.year : Int) -
          (if pairLt (today.month, today.day) (d.month, d.day) then 1 else 0)) ∧
    (∀ s, parse_iso_date s = some ⟨today.year - 1, today.month, today.day⟩ →
      1 ≤ today.year → years_since today (some s) = some 1) := by
  have hempty : parse_iso_date "" = none := by decide
  refine ⟨?_, ?_, ?_⟩
  · intro iso
    cases iso with
    | none => simp [years_since]
    | some s =>
      by_cases hs : s = ""
      · subst hs
        simp [years_since]
      · cases hp : parse_iso_date s with
        | none => simp [years_since, hs, hp]
        | some d => simp [years_since, hs, hp]
  · intro s d hp hle
    have hs : ¬s = "" := by
      intro he
      rw [he, hempty] at hp
      exact Option.noConfusion hp
    constructor
    · simp only [years_since]
      rw [if_neg hs, hp]
    · rcases hle with hy | ⟨hy, hmd⟩
      · by_cases hb : pairLt (today.month, today.day) (d.month, d.day) <;>
          simp [hb] <;> omega
      · have hplt : pairLt (today.month, today.day) (d.month, d.day) = false := by
          simp only [pairLt, Bool.or_eq_false_iff, decide_eq_false_iff_not,
            Bool.and_eq_false_iff, beq_eq_false_iff_ne, ne_eq]
          omega
        rw [hplt]
        simp
        omega
  · intro s hp hy
    have hs : ¬s = "" := by
      intro he
      rw [he, hempty] at hp
      exact Option.noConfusion hp
    simp only [years_since]
    rw [if_neg hs, hp]
    have hplt : pairLt (today.month, today.day) (today.month, today.day) = false := by
      simp [pairLt]
    simp only [hplt, Bool.false_eq_true, if_false, Option.some.injEq]
    omega

theorem c8_witness :
    parse_iso_date "2025-10-12" = some ⟨2025, 10, 12⟩ ∧
    years_since ⟨2026, 10, 12⟩ (some "2025-10-12") = some 1 := by
  refine ⟨by decide, ?_⟩
  exact (c8_years_since_contract ⟨2026, 10, 12⟩).2.2 "2025-10-12" (by decide) (by decide)

/-- C2 counterexample: when the registry answers HTTP 200 with the JSON body
`[]` (a decodable value that is not an object), `analyze_public` on a valid
CNPJ performs `d.get(...)` on a non-dict and the resulting `AttributeError`
escapes the handler — an upstream behaviour under which an exception crosses
the handler boundary. -/
theorem c2_counterexample_nonobject_json_raises :
    (analyze_public badEnv ⟨2026, 10, 12⟩
      { cnpj := "11.222.333/0001-44", razao_social := none }).1 =
      .error "AttributeError" := rfl

theorem profile_ok_good {env : Env} (hg : GoodEnv env) (today : Date) (c : String)
    (rz : Option String) :
    ∃ p, profile_of_cadastro today c rz (fetch_brasilapi_cnpj env c).1 = .ok p ∧
      NullOrStr p.uf := by
  cases hc : (fetch_brasilapi_cnpj env c).1 with
  | okData d =>
    obtain ⟨p, hp, hpuf⟩ := build_profile_ok today c rz (fetch_okData_good hg c hc)
    exact ⟨p, hp, hpuf⟩
  | failStatus st tx => exact ⟨_, rfl, Or.inl rfl⟩
  | failError e => exact ⟨_, rfl, Or.inl rfl⟩

theorem derive_ok_good {env : Env} (hg : GoodEnv env) (req : CourtAttemptRequest)
    (c : String) :
    ∃ ufj munj,
      derive_uf_mun (court_uf0 req) (court_mun0 req) (court_fetched env req c) =
        .ok (ufj, munj) ∧ NullOrStr ufj := by
  have huf0 : NullOrStr (court_uf0 req) := by
    unfold court_uf0
    split
    · exact Or.inl rfl
    · exact Or.inr ⟨_, rfl⟩
  unfold court_fetched
  split
  · exact ⟨_, _, rfl, huf0⟩
  · simp only [derive_uf_mun]
    cases hc : (fetch_brasilapi_cnpj env c).1 with
    | okData d =>
      obtain ⟨fs, rfl, hfs⟩ := fetch_okData_good hg c hc
      exact ⟨_, _, rfl, jor_nullOrStr (dget_nullOrStr hfs "uf") huf0⟩
    | failStatus st tx => exact ⟨_, _, rfl, huf0⟩
    | failError e => exact ⟨_, _, rfl, huf0⟩

/-- C2 (amended): every upstream-call failure (transport exception,
undecodable JSON, non-200 status) is caught at the point of call and
converted to a tagged result with the exception message truncated;
`evidence_search` never lets an exception escape, for any upstream
behaviour; and `analyze_public` and `court_attempt` never let an exception
escape provided every 200-status registry response decodes to a JSON object
whose field values are strings or null.  Without that proviso the policy
fails: as `c2_counterexample_nonobject_json_raises` shows, there are
200-status registry bodies with valid non-object JSON (e.g. `[]`) on which
`analyze_public` raises an uncaught `AttributeError`. -/
theorem c2_failures_tagged_no_uncaught (env : Env) (today : Date)
    (reqA : AnalyzeRequest) (reqE : EvidenceRequest) (reqC : CourtAttemptRequest) :
    (∀ c msg, env (brasilapi_url c) = .exc msg →
      (fetch_brasilapi_cnpj env c).1 = .failError (pyTake msg 200)) ∧
    (∀ u msg, env u = .exc msg →
      (safe_fetch_text env u).1 = .failError u (pyTake msg 200)) ∧
    (∃ r, (evidence_search env reqE).1 = .ok r) ∧
    (GoodEnv env → ∃ r, (analyze_public env today reqA).1 = .ok r) ∧
    (GoodEnv env → ∃ r, (court_attempt env reqC).1 = .ok r) := by
  refine ⟨?_, ?_, ?_, ?_, ?_⟩
  · intro c msg he
    unfold fetch_brasilapi_cnpj
    rw [he]
  · intro u msg he
    unfold safe_fetch_text
    rw [he]
  · by_cases h14 : (normalize_cnpj reqE.cnpj).length = 14
    · unfold evidence_search
      rw [if_pos h14]
      exact ⟨_, rfl⟩
    · unfold evidence_search
      rw [if_neg h14]
      exact ⟨_, rfl⟩
  · intro hg
    by_cases h14 : (normalize_cnpj reqA.cnpj).length = 14
    · unfold analyze_public
      rw [if_pos h14]
      obtain ⟨p, hp, hpuf⟩ :=
        profile_ok_good hg today (normalize_cnpj reqA.cnpj) reqA.razao_social
      rw [hp]
      obtain ⟨o, ho⟩ := pyStrField_ok hpuf
      simp only [analyze_assemble]
      rw [ho]
      exact ⟨_, rfl⟩
    · unfold analyze_public
      rw [if_neg h14]
      exact ⟨_, rfl⟩
  · intro hg
    by_cases h14 : (normalize_cnpj reqC.cnpj).length = 14
    · unfold court_attempt
      rw [if_pos h14]
      obtain ⟨ufj, munj, hde, hufj⟩ := derive_ok_good hg reqC (normalize_cnpj reqC.cnpj)
      rw [hde]
      obtain ⟨o, ho⟩ := pyStrField_ok hufj
      simp only [court_assemble]
      rw [ho]
      exact ⟨_, rfl⟩
    · unfold court_attempt
      rw [if_neg h14]
      exact ⟨_, rfl⟩

theorem c2_witness :
    GoodEnv envExc ∧
    (fetch_brasilapi_cnpj envExc "11222333000144").1 =
      .failError (pyTake "connection timeout" 200) ∧
    (safe_fetch_text envExc "https://www.jusbrasil.com.br/busca?q=11222333000144").1 =
      .failError "https://www.jusbrasil.com.br/busca?q=11222333000144"
        (pyTake "connection timeout" 200) ∧
    (∃ r, (evidence_search badEnv
      { cnpj := "11222333000144", razao_social := none }).1 = .ok r) ∧
    (∃ r, (analyze_public envExc ⟨2026, 10, 12⟩
      { cnpj := "11222333000144", razao_social := none }).1 = .ok r) ∧
    (∃ r, (court_attempt envExc
      { cnpj := "11222333000144", uf := none, municipio := none,
        razao_social := none }).1 = .ok r) := by
  have hg : GoodEnv envExc := by
    intro url t j h
    exact Upstream.noConfusion h
  have h := c2_failures_tagged_no_uncaught envExc ⟨2026, 10, 12⟩
    { cnpj := "11222333000144", razao_social := none }
    { cnpj := "11222333000144", razao_social := none }
    { cnpj := "11222333000144", uf := none, municipio := none, razao_social := none }
  have hb := c2_failures_tagged_no_uncaught badEnv ⟨2026, 10, 12⟩
    { cnpj := "11222333000144", razao_social := none }
    { cnpj := "11222333000144", razao_social := none }
    { cnpj := "11222333000144", uf := none, municipio := none, razao_social := none }
  exact ⟨hg, h.1 "11222333000144" "connection timeout" rfl,
         h.2.1 "https://www.jusbrasil.com.br/busca?q=11222333000144" "connection timeout" rfl,
         hb.2.2.1, h.2.2.2.1 hg, h.2.2.2.2 hg⟩

end CreditoPublico
